import Mathlib

/-!
Shallow embedding of the Tennis Connect backend (src/main.py, src/schemas.py):
five pydantic schemas with validation, the FastAPI create/list endpoints, and
the MongoDB-backed persistence adapter. Floats are modelled as rationals,
calendar dates and timestamps as naturals. The storage layer (`database.py`:
`create_document` / `get_documents`, and document lookup) is not part of the
provided sources; it is modelled from the spec, §4.2, as marked below.
-/

namespace TennisConnect

/-! ### ObjectId strings (bson.ObjectId accepts exactly 24 hex characters) -/

/-- A hexadecimal digit, either case, as accepted by `binascii.unhexlify`. -/
def isHexDigit (c : Char) : Bool :=
  (('0' ≤ c) && (c ≤ '9')) || (('a' ≤ c) && (c ≤ 'f')) || (('A' ≤ c) && (c ≤ 'F'))

/-- `ObjectId(s)` for a Python `str` succeeds iff `s` has 24 characters, all hex. -/
def isValidObjectId (s : String) : Bool :=
  s.length == 24 && s.toList.all isHexDigit

/-! ### Domain entities (src/schemas.py) -/

structure BlogPost where
  title : String
  content : String
  author_name : String
  tags : List String
  published : Bool
deriving Repr, DecidableEq

structure Tournament where
  name : String
  country : String
  city : Option String
  start_date : Nat
  end_date : Nat
  surface : Option String
  level : Option String
deriving Repr, DecidableEq

structure ClassVideo where
  title : String
  description : Option String
  level : Option String
  video_url : Option String
  is_premium : Bool
  price : Option Rat
deriving Repr, DecidableEq

structure Trainer where
  name : String
  country : String
  city : Option String
  languages : List String
  hourly_rate : Rat
  bio : Option String
  rating : Option Rat
deriving Repr, DecidableEq

structure Booking where
  trainer_id : String
  user_name : String
  user_email : String
  tournament_id : Option String
  session_date : Nat
  duration_hours : Rat
  notes : Option String
  status : String
deriving Repr, DecidableEq

/-! ### Raw payloads before pydantic validation: `none` marks an omitted field -/

structure BlogPostPayload where
  title : Option String
  content : Option String
  author_name : Option String
  tags : Option (List String)
  published : Option Bool
deriving Repr, DecidableEq

structure TournamentPayload where
  name : Option String
  country : Option String
  city : Option String
  start_date : Option Nat
  end_date : Option Nat
  surface : Option String
  level : Option String
deriving Repr, DecidableEq

structure ClassVideoPayload where
  title : Option String
  description : Option String
  level : Option String
  video_url : Option String
  is_premium : Option Bool
  price : Option Rat
deriving Repr, DecidableEq

structure TrainerPayload where
  name : Option String
  country : Option String
  city : Option String
  languages : Option (List String)
  hourly_rate : Option Rat
  bio : Option String
  rating : Option Rat
deriving Repr, DecidableEq

structure BookingPayload where
  trainer_id : Option String
  user_name : Option String
  user_email : Option String
  tournament_id : Option String
  session_date : Option Nat
  duration_hours : Option Rat
  notes : Option String
  status : Option String
deriving Repr, DecidableEq

/-! ### Pydantic validation: aggregate all offending fields into one error -/

/-- Fields of a `BlogPost` payload rejected by pydantic, in declaration order. -/
def blogPostErrors (p : BlogPostPayload) : List String :=
  (if p.title.isNone then ["title"] else [])
    ++ (if p.content.isNone then ["content"] else [])
    ++ (if p.author_name.isNone then ["author_name"] else [])

/-- Validate a `BlogPost` payload, applying defaults `tags=[]`, `published=True`. -/
def validateBlogPost (p : BlogPostPayload) : Except (List String) BlogPost :=
  match blogPostErrors p with
  | [] => .ok { title := p.title.getD "", content := p.content.getD "",
                author_name := p.author_name.getD "",
                tags := p.tags.getD [], published := p.published.getD true }
  | es => .error es

/-- Fields of a `Tournament` payload rejected by pydantic, in declaration order. -/
def tournamentErrors (p : TournamentPayload) : List String :=
  (if p.name.isNone then ["name"] else [])
    ++ (if p.country.isNone then ["country"] else [])
    ++ (if p.start_date.isNone then ["start_date"] else [])
    ++ (if p.end_date.isNone then ["end_date"] else [])

/-- Validate a `Tournament` payload. -/
def validateTournament (p : TournamentPayload) : Except (List String) Tournament :=
  match tournamentErrors p with
  | [] => .ok { name := p.name.getD "", country := p.country.getD "",
                city := p.city, start_date := p.start_date.getD 0,
                end_date := p.end_date.getD 0, surface := p.surface,
                level := p.level }
  | es => .error es

/-- Fields of a `ClassVideo` payload rejected by pydantic: `title` required,
`price` constrained by `ge=0` when present. -/
def classVideoErrors (p : ClassVideoPayload) : List String :=
  (if p.title.isNone then ["title"] else [])
    ++ (match p.price with
        | none => []
        | some r => if r < 0 then ["price"] else [])

/-- Validate a `ClassVideo` payload, applying default `is_premium=False`. -/
def validateClassVideo (p : ClassVideoPayload) : Except (List String) ClassVideo :=
  match classVideoErrors p with
  | [] => .ok { title := p.title.getD "", description := p.description,
                level := p.level, video_url := p.video_url,
                is_premium := p.is_premium.getD false, price := p.price }
  | es => .error es

/-- Fields of a `Trainer` payload rejected by pydantic: `name`, `country`,
`hourly_rate` required; `hourly_rate` constrained by `ge=0`; `rating`
constrained by `ge=0, le=5` when present. -/
def trainerErrors (p : TrainerPayload) : List String :=
  (if p.name.isNone then ["name"] else [])
    ++ (if p.country.isNone then ["country"] else [])
    ++ (match p.hourly_rate with
        | none => ["hourly_rate"]
        | some r => if r < 0 then ["hourly_rate"] else [])
    ++ (match p.rating with
        | none => []
        | some r => if r < 0 ∨ 5 < r then ["rating"] else [])

/-- Validate a `Trainer` payload, applying default `languages=[]`. -/
def validateTrainer (p : TrainerPayload) : Except (List String) Trainer :=
  match trainerErrors p with
  | [] => .ok { name := p.name.getD "", country := p.country.getD "",
                city := p.city, languages := p.languages.getD [],
                hourly_rate := p.hourly_rate.getD 0, bio := p.bio,
                rating := p.rating }
  | es => .error es

/-- Fields of a `Booking` payload rejected by pydantic: `trainer_id`,
`user_name`, `user_email`, `session_date`, `duration_hours` required;
`duration_hours` constrained by `gt=0`. The `status` field carries no
constraint in the schema. -/
def bookingErrors (p : BookingPayload) : List String :=
  (if p.trainer_id.isNone then ["trainer_id"] else [])
    ++ (if p.user_name.isNone then ["user_name"] else [])
    ++ (if p.user_email.isNone then ["user_email"] else [])
    ++ (if p.session_date.isNone then ["session_date"] else [])
    ++ (match p.duration_hours with
        | none => ["duration_hours"]
        | some r => if r ≤ 0 then ["duration_hours"] else [])

/-- Validate a `Booking` payload, applying default `status="pending"`. -/
def validateBooking (p : BookingPayload) : Except (List String) Booking :=
  match bookingErrors p with
  | [] => .ok { trainer_id := p.trainer_id.getD "",
                user_name := p.user_name.getD "",
                user_email := p.user_email.getD "",
                tournament_id := p.tournament_id,
                session_date := p.session_date.getD 0,
                duration_hours := p.duration_hours.getD 0,
                notes := p.notes, status := p.status.getD "pending" }
  | es => .error es

/-! ### Storage layer -/

/-- One MongoDB collection: a counter for assigning fresh identifiers and the
stored documents keyed by their identifier string. -/
structure Coll (α : Type) where
  counter : Nat
  docs : List (String × α)
deriving Repr

/-- A hexadecimal digit character for `n < 16`. -/
def hexChar (n : Nat) : Char :=
  if n < 10 then Char.ofNat (48 + n) else Char.ofNat (87 + n)

/-- Render a counter as a 24-character hexadecimal identifier string. -/
def objIdOfNat (n : Nat) : String :=
  String.mk ((List.range 24).map fun i => hexChar (n / 16 ^ i % 16))

/-- Modelled from the spec: `database.py` is not among the provided sources;
§4.2 `insert(collectionName, entity) -> Identifier` "appends the entity;
returns the newly assigned identifier" (the spec's `create_document`). -/
def Coll.insert {α : Type} (c : Coll α) (a : α) : String × Coll α :=
  let i := objIdOfNat c.counter
  (i, { counter := c.counter + 1, docs := c.docs ++ [(i, a)] })

/-- Modelled from the spec: §4.2 `findOne(collectionName, identifier) ->
Entity | NotFound`, "exact lookup by identifier" (pymongo
`find_one({"_id": oid})`). -/
def Coll.findOne {α : Type} (c : Coll α) (i : String) : Option α :=
  (c.docs.find? (fun p => p.1 == i)).map Prod.snd

/-- Modelled from the spec: §4.2 `findMany(collectionName, filter, limit)`,
"filter is a mapping of field name to exact-match value or a small set of
operators"; "results are capped at limit" (the spec's `get_documents`). The
per-collection filter mappings built in src/main.py are passed as a matching
predicate. -/
def get_documents {α : Type} (c : Coll α) (pred : α → Bool) (limit : Nat) :
    List α :=
  ((c.docs.map Prod.snd).filter pred).take limit

/-- The database handle: one collection per schema (model name lowercased). -/
structure DB where
  blogposts : Coll BlogPost
  tournaments : Coll Tournament
  classvideos : Coll ClassVideo
  trainers : Coll Trainer
  bookings : Coll Booking
deriving Repr

/-! ### Errors surfaced by the API -/

inductive ApiErr where
  /-- Pydantic rejection of the request body, FastAPI 422, naming every
  offending field. -/
  | malformedPayload (fields : List String)
  /-- An explicit `HTTPException(status_code, detail)`. -/
  | http (status_code : Nat) (detail : String)
deriving Repr, DecidableEq

/-! ### Helpers from src/main.py -/

/-- Lower-case a string character by character (`bson.ObjectId` equality is on
the decoded bytes, hence case-insensitive on the hex digits; identifiers are
normalized to lower case). -/
def strToLower (s : String) : String := String.mk (s.toList.map Char.toLower)

/-- `to_object_id` (src/main.py:62–66): parse an identifier string, raising
HTTP 400 "Invalid ID format" when `ObjectId(id_str)` fails. The resulting
ObjectId compares equal to stored identifiers case-insensitively, modelled by
lower-casing. -/
def to_object_id (id_str : String) : Except ApiErr String :=
  if isValidObjectId id_str then .ok (strToLower id_str)
  else .error (.http 400 "Invalid ID format")

/-- Python truthiness of an `Optional[str]`: `None` and `""` are falsy. -/
def pyTruthyOptStr : Option String → Bool
  | none => false
  | some s => !(s == "")

/-! ### Booking creation (src/main.py:155–166) -/

/-- `create_booking`: parse `trainer_id`, require the trainer to exist, then
(if `tournament_id` is truthy) parse it and require the tournament to exist,
and only then insert the booking. The database value is threaded through so
that failures demonstrably persist nothing. -/
def create_booking (db : DB) (b : Booking) : Except ApiErr String × DB :=
  match to_object_id b.trainer_id with
  | .error e => (.error e, db)
  | .ok oid =>
    match db.trainers.findOne oid with
    | none => (.error (.http 404 "Trainer not found"), db)
    | some _ =>
      if pyTruthyOptStr b.tournament_id then
        match to_object_id (b.tournament_id.getD "") with
        | .error e => (.error e, db)
        | .ok toid =>
          match db.tournaments.findOne toid with
          | none => (.error (.http 404 "Tournament not found"), db)
          | some _ =>
            let r := db.bookings.insert b
            (.ok r.1, { db with bookings := r.2 })
      else
        let r := db.bookings.insert b
        (.ok r.1, { db with bookings := r.2 })

/-! ### Filter mappings built by the list endpoints (src/main.py)

Each structure mirrors the `filter_dict` of one endpoint: a field is `some v`
exactly when the endpoint put the corresponding key into the dict. -/

structure BlogFilter where
  published : Option Bool
  tags : Option String
deriving Repr, DecidableEq

structure TournamentFilter where
  country : Option String
  /-- The `{"$gte": date.today()}` condition on `start_date`. -/
  start_date_gte : Option Nat
deriving Repr, DecidableEq

structure ClassVideoFilter where
  is_premium : Option Bool
deriving Repr, DecidableEq

structure TrainerFilter where
  country : Option String
  city : Option String
deriving Repr, DecidableEq

structure BookingFilter where
  trainer_id : Option String
  user_email : Option String
deriving Repr, DecidableEq

/-- MongoDB match semantics of a blog filter; an exact-match condition on the
array field `tags` matches documents whose array contains the value. -/
def blogMatches (f : BlogFilter) (d : BlogPost) : Bool :=
  (match f.published with | none => true | some b => d.published == b)
    && (match f.tags with | none => true | some t => d.tags.contains t)

/-- MongoDB match semantics of a tournament filter. -/
def tournamentMatches (f : TournamentFilter) (d : Tournament) : Bool :=
  (match f.country with | none => true | some c => d.country == c)
    && (match f.start_date_gte with
        | none => true
        | some t => decide (t ≤ d.start_date))

/-- MongoDB match semantics of a class-video filter. -/
def classVideoMatches (f : ClassVideoFilter) (d : ClassVideo) : Bool :=
  match f.is_premium with | none => true | some b => d.is_premium == b

/-- MongoDB match semantics of a trainer filter. -/
def trainerMatches (f : TrainerFilter) (d : Trainer) : Bool :=
  (match f.country with | none => true | some c => d.country == c)
    && (match f.city with | none => true | some c => d.city == some c)

/-- MongoDB match semantics of a booking filter. -/
def bookingMatches (f : BookingFilter) (d : Booking) : Bool :=
  (match f.trainer_id with | none => true | some t => d.trainer_id == t)
    && (match f.user_email with | none => true | some e => d.user_email == e)

/-- `list_blogs` filter dict (src/main.py:77–81): starts as
`{"published": True}`; `tags` added only when `tag` is truthy. -/
def blog_filter (tag : Option String) : BlogFilter :=
  { published := some true,
    tags := if pyTruthyOptStr tag then tag else none }

/-- `list_tournaments` filter dict (src/main.py:97–104); `today` stands for
`date.today()` at call time. -/
def tournament_filter (country : Option String) (upcoming_only : Bool)
    (today : Nat) : TournamentFilter :=
  { country := if pyTruthyOptStr country then country else none,
    start_date_gte := if upcoming_only then some today else none }

/-- `list_class_videos` filter dict (src/main.py:119–123): `is_premium` added
whenever `premium is not None`. -/
def class_video_filter (premium : Option Bool) : ClassVideoFilter :=
  { is_premium := premium }

/-- `list_trainers` filter dict (src/main.py:138–144). -/
def trainer_filter (country city : Option String) : TrainerFilter :=
  { country := if pyTruthyOptStr country then country else none,
    city := if pyTruthyOptStr city then city else none }

/-- `list_bookings` filter dict (src/main.py:169–175). -/
def booking_filter (trainer_id user_email : Option String) : BookingFilter :=
  { trainer_id := if pyTruthyOptStr trainer_id then trainer_id else none,
    user_email := if pyTruthyOptStr user_email then user_email else none }

/-! ### List endpoints (src/main.py) -/

/-- `GET /api/blogs` (src/main.py:77–86), default limit 50. -/
def list_blogs (db : DB) (tag : Option String) (limit : Nat := 50) :
    List BlogPost :=
  get_documents db.blogposts (blogMatches (blog_filter tag)) limit

/-- `GET /api/tournaments` (src/main.py:97–108), default limit 100. -/
def list_tournaments (db : DB) (country : Option String) (upcoming_only : Bool)
    (today : Nat) (limit : Nat := 100) : List Tournament :=
  get_documents db.tournaments
    (tournamentMatches (tournament_filter country upcoming_only today)) limit

/-- `GET /api/classes` (src/main.py:119–127), default limit 100. -/
def list_class_videos (db : DB) (premium : Option Bool) (limit : Nat := 100) :
    List ClassVideo :=
  get_documents db.classvideos (classVideoMatches (class_video_filter premium))
    limit

/-- `GET /api/trainers` (src/main.py:138–148), default limit 100. -/
def list_trainers (db : DB) (country city : Option String)
    (limit : Nat := 100) : List Trainer :=
  get_documents db.trainers (trainerMatches (trainer_filter country city)) limit

/-- `GET /api/bookings` (src/main.py:169–179), default limit 100. -/
def list_bookings (db : DB) (trainer_id user_email : Option String)
    (limit : Nat := 100) : List Booking :=
  get_documents db.bookings
    (bookingMatches (booking_filter trainer_id user_email)) limit

/-! ### Create endpoints: FastAPI validates the body, then runs the handler -/

/-- `POST /api/blogs` (src/main.py:71–74) with pydantic validation in front. -/
def post_blog (db : DB) (p : BlogPostPayload) : Except ApiErr String × DB :=
  match validateBlogPost p with
  | .error es => (.error (.malformedPayload es), db)
  | .ok e =>
    let r := db.blogposts.insert e
    (.ok r.1, { db with blogposts := r.2 })

/-- `POST /api/tournaments` (src/main.py:91–94). -/
def post_tournament (db : DB) (p : TournamentPayload) :
    Except ApiErr String × DB :=
  match validateTournament p with
  | .error es => (.error (.malformedPayload es), db)
  | .ok e =>
    let r := db.tournaments.insert e
    (.ok r.1, { db with tournaments := r.2 })

/-- `POST /api/classes` (src/main.py:113–116). -/
def post_class_video (db : DB) (p : ClassVideoPayload) :
    Except ApiErr String × DB :=
  match validateClassVideo p with
  | .error es => (.error (.malformedPayload es), db)
  | .ok e =>
    let r := db.classvideos.insert e
    (.ok r.1, { db with classvideos := r.2 })

/-- `POST /api/trainers` (src/main.py:132–135). -/
def post_trainer (db : DB) (p : TrainerPayload) : Except ApiErr String × DB :=
  match validateTrainer p with
  | .error es => (.error (.malformedPayload es), db)
  | .ok e =>
    let r := db.trainers.insert e
    (.ok r.1, { db with trainers := r.2 })

/-- `POST /api/bookings` (src/main.py:155–166): pydantic validation of the
`BookingIn` body, then `create_booking`. -/
def post_booking (db : DB) (p : BookingPayload) : Except ApiErr String × DB :=
  match validateBooking p with
  | .error es => (.error (.malformedPayload es), db)
  | .ok b => create_booking db b

/-! ### Concrete fixtures for witnesses and counterexamples -/

/-- A well-formed 24-hex identifier used as a stored trainer id. -/
def oidA : String := "aaaaaaaaaaaaaaaaaaaaaaaa"

/-- A well-formed 24-hex identifier distinct from `oidA`. -/
def oidB : String := "bbbbbbbbbbbbbbbbbbbbbbbb"

def trainerAna : Trainer :=
  { name := "Ana Gomez", country := "Spain", city := none, languages := [],
    hourly_rate := 40, bio := none, rating := none }

/-- A database holding exactly one trainer, stored under `oidA`. -/
def db1 : DB :=
  { blogposts := ⟨0, []⟩, tournaments := ⟨0, []⟩, classvideos := ⟨0, []⟩,
    trainers := ⟨1, [(oidA, trainerAna)]⟩, bookings := ⟨0, []⟩ }

/-- A booking body referencing `oidA`, without a tournament. -/
def bkJon : Booking :=
  { trainer_id := oidA, user_name := "Jon", user_email := "jon@x.com",
    tournament_id := none, session_date := 1748772000,
    duration_hours := 1, notes := none, status := "pending" }

/-- The database obtained from `db1` by inserting `bkJon` into the booking
collection. -/
def db1AfterBooking : DB := { db1 with bookings := (db1.bookings.insert bkJon).2 }

/-! ### Helper lemmas -/

lemma isValidObjectId_ne_empty {s : String} (h : isValidObjectId s = true) :
    (s == "") = false := by
  rcases hs : s == "" with _ | _
  · rfl
  · exfalso
    have : s = "" := eq_of_beq hs
    subst this
    simp [isValidObjectId] at h

lemma to_object_id_of_valid {s : String} (h : isValidObjectId s = true) :
    to_object_id s = .ok (strToLower s) := by
  simp [to_object_id, h]

lemma to_object_id_of_invalid {s : String} (h : isValidObjectId s = false) :
    to_object_id s = .error (.http 400 "Invalid ID format") := by
  simp [to_object_id, h]

lemma to_object_id_ok_inv {s oid : String} (h : to_object_id s = .ok oid) :
    isValidObjectId s = true ∧ oid = (strToLower s) := by
  unfold to_object_id at h
  rcases hv : isValidObjectId s with _ | _ <;> rw [hv] at h
  · exact absurd h (by simp)
  · exact ⟨rfl, (Except.ok.injEq ..  ▸ h.symm)⟩

/-- `create_booking` on a malformed trainer id: shared computation. -/
lemma create_booking_invalid_trainer {db : DB} {b : Booking}
    (h : isValidObjectId b.trainer_id = false) :
    create_booking db b = (.error (.http 400 "Invalid ID format"), db) := by
  unfold create_booking
  rw [to_object_id_of_invalid h]

/-! ### C1 -/

/-- C1: for every booking body whose `trainer_id` is not a well-formed
ObjectId string, `create_booking` fails with HTTP 400 "Invalid ID format"
(InvalidReference) — in particular not with a 404 NotFound — and the database,
in particular the booking collection, is unchanged. -/
theorem C1_malformed_trainer_id_invalid_reference (db : DB) (b : Booking)
    (h : isValidObjectId b.trainer_id = false) :
    create_booking db b = (.error (.http 400 "Invalid ID format"), db)
    ∧ ApiErr.http 400 "Invalid ID format" ≠ ApiErr.http 404 "Trainer not found" := by
  exact ⟨create_booking_invalid_trainer h, by decide⟩

/-- C1 witness: the spec's example input `trainer_id="not-a-valid-id"`. -/
theorem C1_witness :
    isValidObjectId "not-a-valid-id" = false
    ∧ (create_booking db1 { bkJon with trainer_id := "not-a-valid-id" }
        = (.error (.http 400 "Invalid ID format"), db1)
      ∧ ApiErr.http 400 "Invalid ID format" ≠ ApiErr.http 404 "Trainer not found") :=
  ⟨by decide,
   C1_malformed_trainer_id_invalid_reference db1
     { bkJon with trainer_id := "not-a-valid-id" } (by decide)⟩

/-! ### C2 -/

/-- C2: with a well-formed `trainer_id` that matches no stored trainer,
`create_booking` fails with 404 "Trainer not found" and persists nothing;
with an existing trainer and a present, well-formed `tournament_id` that
matches no stored tournament, it fails with 404 "Tournament not found" and
persists nothing; and whenever it succeeds, the trainer existed, any present
non-empty `tournament_id` referenced an existing tournament, and exactly the
one booking document was appended. -/
theorem C2_booking_existence_checks (db : DB) (b : Booking) :
    (isValidObjectId b.trainer_id = true →
      db.trainers.findOne (strToLower b.trainer_id) = none →
      create_booking db b = (.error (.http 404 "Trainer not found"), db))
    ∧ (∀ trn tid, isValidObjectId b.trainer_id = true →
      db.trainers.findOne (strToLower b.trainer_id) = some trn →
      b.tournament_id = some tid →
      isValidObjectId tid = true →
      db.tournaments.findOne (strToLower tid) = none →
      create_booking db b = (.error (.http 404 "Tournament not found"), db))
    ∧ (∀ i db2, create_booking db b = (.ok i, db2) →
      (∃ trn, db.trainers.findOne (strToLower b.trainer_id) = some trn)
      ∧ (∀ tid, b.tournament_id = some tid → tid ≠ "" →
          ∃ t, db.tournaments.findOne (strToLower tid) = some t)
      ∧ db2.bookings.docs = db.bookings.docs ++ [(i, b)]) := by
  refine ⟨?_, ?_, ?_⟩
  · intro hv hnone
    simp only [create_booking, to_object_id_of_valid hv, hnone]
  · intro trn tid hv hsome htid hvt hnone
    simp only [create_booking, to_object_id_of_valid hv, hsome, htid,
      pyTruthyOptStr, isValidObjectId_ne_empty hvt, Bool.not_false, if_true,
      Option.getD_some, to_object_id_of_valid hvt, hnone]
  · intro i db2 h
    unfold create_booking at h
    split at h
    · exact absurd h (by simp)
    · next oid heq =>
      obtain ⟨hv, rfl⟩ := to_object_id_ok_inv heq
      split at h
      · exact absurd h (by simp)
      · next trn hf =>
        refine ⟨⟨trn, hf⟩, ?_⟩
        split at h
        · next hpt =>
          split at h
          · exact absurd h (by simp)
          · next toid heq2 =>
            split at h
            · exact absurd h (by simp)
            · next t hf2 =>
              simp only [Prod.mk.injEq, Except.ok.injEq] at h
              obtain ⟨rfl, rfl⟩ := h
              refine ⟨?_, by simp [Coll.insert]⟩
              intro tid htid hne
              rw [htid, Option.getD_some] at heq2
              obtain ⟨hvt, rfl⟩ := to_object_id_ok_inv heq2
              exact ⟨t, hf2⟩
        · next hpt =>
          simp only [Prod.mk.injEq, Except.ok.injEq] at h
          obtain ⟨rfl, rfl⟩ := h
          refine ⟨?_, by simp [Coll.insert]⟩
          intro tid htid hne
          rw [htid] at hpt
          simp [pyTruthyOptStr] at hpt
          exact absurd hpt hne

/-- C2 witness: over the one-trainer database `db1`, a booking with an unknown
but well-formed trainer id fails with "Trainer not found"; `bkJon` with a
well-formed unknown tournament id fails with "Tournament not found"; and the
successful insertion of `bkJon` appends exactly one booking document. -/
theorem C2_witness :
    create_booking db1 { bkJon with trainer_id := oidB }
      = (.error (.http 404 "Trainer not found"), db1)
    ∧ create_booking db1 { bkJon with tournament_id := some oidB }
      = (.error (.http 404 "Tournament not found"), db1)
    ∧ db1AfterBooking.bookings.docs = db1.bookings.docs ++ [(objIdOfNat 0, bkJon)] := by
  refine ⟨?_, ?_, ?_⟩
  · exact (C2_booking_existence_checks db1 { bkJon with trainer_id := oidB }).1
      (by decide) (by decide)
  · exact (C2_booking_existence_checks db1
      { bkJon with tournament_id := some oidB }).2.1 trainerAna oidB
      (by decide) (by decide) rfl (by decide) (by decide)
  · exact ((C2_booking_existence_checks db1 bkJon).2.2
      (objIdOfNat 0) db1AfterBooking rfl).2.2

/-! ### C3 -/

/-- A full booking payload that supplies `status="archived"`. -/
def statusPayload : BookingPayload :=
  { trainer_id := some oidA, user_name := some "Jon",
    user_email := some "jon@x.com", tournament_id := none,
    session_date := some 1748772000, duration_hours := some 1,
    notes := none, status := some "archived" }

/-- The booking that validation produces from `statusPayload`. -/
def bkArchived : Booking := { bkJon with status := "archived" }

/-- C3 counterexample: pydantic accepts a `status` outside
pending/confirmed/canceled — the schema puts no constraint on the field. -/
theorem C3_status_counterexample :
    validateBooking statusPayload = .ok bkArchived
    ∧ bkArchived.status = "archived"
    ∧ "archived" ∉ (["pending", "confirmed", "canceled"] : List String) := by
  exact ⟨rfl, rfl, by decide⟩

/-- C3 (amended): validation places no constraint on `status` — supplying any
string leaves the set of rejected fields unchanged — and when `status` is
omitted the validated booking's status defaults to "pending". -/
theorem C3_status_default_amended (p : BookingPayload) (s : String) :
    bookingErrors { p with status := some s } = bookingErrors p
    ∧ (∀ e, validateBooking p = .ok e → e.status = p.status.getD "pending") := by
  refine ⟨rfl, ?_⟩
  intro e he
  unfold validateBooking at he
  split at he
  · cases he
    rfl
  · exact absurd he (by simp)

/-- C3 witness: `bkJon`'s payload without a `status`, and the string "x". -/
theorem C3_witness :
    bookingErrors { statusPayload with status := some "x" }
      = bookingErrors { statusPayload with status := none }
    ∧ bkJon.status = "pending" :=
  ⟨(C3_status_default_amended { statusPayload with status := none } "x").1,
   (C3_status_default_amended { statusPayload with status := none } "x").2
     bkJon rfl⟩

/-! ### C4 -/

/-- `bkJon` with `tournament_id` supplied as the empty string: present, and
not a well-formed ObjectId. -/
def bkEmptyTournament : Booking := { bkJon with tournament_id := some "" }

/-- The database obtained from `db1` by inserting `bkEmptyTournament`. -/
def db1AfterEmptyTournament : DB :=
  { db1 with bookings := (db1.bookings.insert bkEmptyTournament).2 }

/-- C4 counterexample: a booking whose `tournament_id` is present and
malformed (the empty string) where creation does NOT fail with
InvalidReference — Python truthiness skips the check, the create succeeds and
the booking document is persisted. -/
theorem C4_empty_tournament_id_counterexample :
    bkEmptyTournament.tournament_id = some ""
    ∧ isValidObjectId "" = false
    ∧ create_booking db1 bkEmptyTournament
        = (.ok (objIdOfNat 0), db1AfterEmptyTournament)
    ∧ db1AfterEmptyTournament.bookings.docs
        = db1.bookings.docs ++ [(objIdOfNat 0, bkEmptyTournament)] := by
  exact ⟨rfl, by decide, rfl, by decide⟩

/-- C4 (amended): if `tournament_id` is present, non-empty and malformed, and
the trainer check passes (well-formed `trainer_id` naming a stored trainer),
booking creation fails with HTTP 400 "Invalid ID format" (InvalidReference)
without consulting the tournament collection, and the database is unchanged.
An empty-string `tournament_id` is falsy in Python and skips the check
altogether, and a failing trainer check takes precedence. -/
theorem C4_malformed_tournament_id_amended (db : DB) (b : Booking)
    (t : String) (trn : Trainer)
    (h1 : b.tournament_id = some t) (h2 : t ≠ "")
    (h3 : isValidObjectId t = false)
    (h4 : isValidObjectId b.trainer_id = true)
    (h5 : db.trainers.findOne (strToLower b.trainer_id) = some trn) :
    create_booking db b = (.error (.http 400 "Invalid ID format"), db) := by
  have hne : (t == "") = false := by
    rcases ht : t == "" with _ | _
    · rfl
    · exact absurd (eq_of_beq ht) h2
  simp only [create_booking, to_object_id_of_valid h4, h5, h1, pyTruthyOptStr,
    hne, Bool.not_false, if_true, Option.getD_some, to_object_id_of_invalid h3]

/-- C4 witness: `bkJon` with the malformed, non-empty tournament id "zzz"
over the one-trainer database `db1`. -/
theorem C4_witness :
    create_booking db1 { bkJon with tournament_id := some "zzz" }
      = (.error (.http 400 "Invalid ID format"), db1) :=
  C4_malformed_tournament_id_amended db1
    { bkJon with tournament_id := some "zzz" } "zzz" trainerAna rfl
    (by decide) (by decide) (by decide) (by decide)

/-! ### List-endpoint claims -/

lemma pred_of_mem_get_documents {α : Type} {c : Coll α} {pr : α → Bool}
    {limit : Nat} {d : α} (h : d ∈ get_documents c pr limit) : pr d = true := by
  unfold get_documents at h
  exact (List.mem_filter.mp (List.take_subset _ _ h)).2

/-! ### C6 -/

/-- C6: the filter dict built by the blog list endpoint contains
`published=true` for every value of the `tag` parameter, and every blog post
the endpoint returns has `published = true`. -/
theorem C6_blogs_published_filter (tag : Option String) :
    (blog_filter tag).published = some true
    ∧ ∀ (db : DB) (limit : Nat) (d : BlogPost),
        d ∈ list_blogs db tag limit → d.published = true := by
  refine ⟨rfl, ?_⟩
  intro db limit d hd
  have hm := pred_of_mem_get_documents hd
  simp only [blogMatches, blog_filter, Bool.and_eq_true, beq_iff_eq] at hm
  exact hm.1

/-- A published blog post and a database holding only it. -/
def blogHello : BlogPost :=
  { title := "Hello", content := "c", author_name := "A",
    tags := ["tennis"], published := true }

def dbBlogs : DB := { db1 with blogposts := ⟨1, [(oidB, blogHello)]⟩ }

/-- C6 witness: listing `dbBlogs` without a tag returns `blogHello`, which is
published. -/
theorem C6_witness :
    (blog_filter none).published = some true ∧ blogHello.published = true :=
  ⟨(C6_blogs_published_filter none).1,
   (C6_blogs_published_filter none).2 dbBlogs 50 blogHello (by decide)⟩

/-! ### C7 -/

/-- C7: with `upcoming_only=true`, every tournament the list endpoint returns
has a start date on or after `today` (the value of `date.today()` at call
time). -/
theorem C7_upcoming_only_start_date (db : DB) (country : Option String)
    (today limit : Nat) (d : Tournament)
    (h : d ∈ list_tournaments db country true today limit) :
    today ≤ d.start_date := by
  have hm := pred_of_mem_get_documents h
  simp only [tournamentMatches, tournament_filter, if_true, Bool.and_eq_true,
    decide_eq_true_eq] at hm
  exact hm.2

/-- A tournament starting at day 20300, and a database holding only it. -/
def tournamentRG : Tournament :=
  { name := "RG", country := "France", city := some "Paris",
    start_date := 20300, end_date := 20314, surface := some "clay",
    level := none }

def dbTournaments : DB := { db1 with tournaments := ⟨1, [(oidB, tournamentRG)]⟩ }

/-- C7 witness: at `today = 20000`, `tournamentRG` is returned and its start
date is on or after today. -/
theorem C7_witness : (20000 : Nat) ≤ tournamentRG.start_date :=
  C7_upcoming_only_start_date dbTournaments none 20000 100 tournamentRG
    (by decide)

/-! ### C8 -/

/-- C8: with `premium=false`, no class video the list endpoint returns has
`is_premium = true`. -/
theorem C8_premium_false_filter (db : DB) (limit : Nat) (d : ClassVideo)
    (h : d ∈ list_class_videos db (some false) limit) :
    d.is_premium = false := by
  have hm := pred_of_mem_get_documents h
  simp only [classVideoMatches, class_video_filter, beq_iff_eq] at hm
  exact hm

/-- A free class video and a database holding only it. -/
def videoServe : ClassVideo :=
  { title := "Serve", description := none, level := some "Beginner",
    video_url := none, is_premium := false, price := none }

def dbVideos : DB := { db1 with classvideos := ⟨1, [(oidB, videoServe)]⟩ }

/-- C8 witness: listing `dbVideos` with `premium=false` returns `videoServe`,
which is not premium. -/
theorem C8_witness : videoServe.is_premium = false :=
  C8_premium_false_filter dbVideos 100 videoServe (by decide)

/-! ### C10 -/

/-- C10: supplying the empty string for any string filter parameter (blog
`tag`, tournament `country`, trainer `country`/`city`, booking
`trainer_id`/`user_email`) is falsy in Python, contributes no condition to
the filter dict, and yields the same listing as omitting the parameter. -/
theorem C10_empty_string_filters_no_condition (db : DB)
    (limit today : Nat) (upcoming : Bool) (x : Option String) :
    list_blogs db (some "") limit = list_blogs db none limit
    ∧ list_tournaments db (some "") upcoming today limit
        = list_tournaments db none upcoming today limit
    ∧ list_trainers db (some "") x limit = list_trainers db none x limit
    ∧ list_trainers db x (some "") limit = list_trainers db x none limit
    ∧ list_bookings db (some "") x limit = list_bookings db none x limit
    ∧ list_bookings db x (some "") limit = list_bookings db x none limit := by
  refine ⟨?_, ?_, ?_, ?_, ?_, ?_⟩ <;>
    simp [list_blogs, list_tournaments, list_trainers, list_bookings,
      blog_filter, tournament_filter, trainer_filter, booking_filter,
      pyTruthyOptStr]

/-! ### C5 -/

/-- Looking up the identifier freshly assigned by `insert` finds the document
just appended, provided the assigned identifier is not already a key. -/
lemma findOne_insert_self {α : Type} (c : Coll α) (a : α)
    (h : ∀ q ∈ c.docs, q.1 ≠ objIdOfNat c.counter) :
    (c.insert a).2.findOne (c.insert a).1 = some a := by
  have hnone : c.docs.find? (fun q => q.1 == objIdOfNat c.counter) = none := by
    rw [List.find?_eq_none]
    intro q hq
    simpa using h q hq
  simp [Coll.insert, Coll.findOne, List.find?_append, hnone]

/-- C5: for every payload of each of the five kinds that validation accepts,
inserting the validated entity and fetching it by the returned identifier
yields it back, and the validated entity equals the input with defaults
applied for omitted optional fields (`tags=[]`, `published=true`,
`is_premium=false`, `languages=[]`, `status="pending"`). Each hypothesis says
the identifier the collection will assign next is not already in use. -/
theorem C5_validate_insert_find_round_trip
    (cb : Coll BlogPost) (ct : Coll Tournament) (cc : Coll ClassVideo)
    (ctr : Coll Trainer) (cbk : Coll Booking)
    (hb : ∀ q ∈ cb.docs, q.1 ≠ objIdOfNat cb.counter)
    (ht : ∀ q ∈ ct.docs, q.1 ≠ objIdOfNat ct.counter)
    (hc : ∀ q ∈ cc.docs, q.1 ≠ objIdOfNat cc.counter)
    (htr : ∀ q ∈ ctr.docs, q.1 ≠ objIdOfNat ctr.counter)
    (hbk : ∀ q ∈ cbk.docs, q.1 ≠ objIdOfNat cbk.counter) :
    (∀ p e, validateBlogPost p = .ok e →
      (cb.insert e).2.findOne (cb.insert e).1 = some e
      ∧ p.title = some e.title ∧ p.content = some e.content
      ∧ p.author_name = some e.author_name
      ∧ e.tags = p.tags.getD [] ∧ e.published = p.published.getD true)
    ∧ (∀ p e, validateTournament p = .ok e →
      (ct.insert e).2.findOne (ct.insert e).1 = some e
      ∧ p.name = some e.name ∧ p.country = some e.country ∧ e.city = p.city
      ∧ p.start_date = some e.start_date ∧ p.end_date = some e.end_date
      ∧ e.surface = p.surface ∧ e.level = p.level)
    ∧ (∀ p e, validateClassVideo p = .ok e →
      (cc.insert e).2.findOne (cc.insert e).1 = some e
      ∧ p.title = some e.title ∧ e.description = p.description
      ∧ e.level = p.level ∧ e.video_url = p.video_url
      ∧ e.is_premium = p.is_premium.getD false ∧ e.price = p.price)
    ∧ (∀ p e, validateTrainer p = .ok e →
      (ctr.insert e).2.findOne (ctr.insert e).1 = some e
      ∧ p.name = some e.name ∧ p.country = some e.country ∧ e.city = p.city
      ∧ e.languages = p.languages.getD []
      ∧ p.hourly_rate = some e.hourly_rate ∧ e.bio = p.bio
      ∧ e.rating = p.rating)
    ∧ (∀ p e, validateBooking p = .ok e →
      (cbk.insert e).2.findOne (cbk.insert e).1 = some e
      ∧ p.trainer_id = some e.trainer_id ∧ p.user_name = some e.user_name
      ∧ p.user_email = some e.user_email ∧ e.tournament_id = p.tournament_id
      ∧ p.session_date = some e.session_date
      ∧ p.duration_hours = some e.duration_hours ∧ e.notes = p.notes
      ∧ e.status = p.status.getD "pending") := by
  refine ⟨?_, ?_, ?_, ?_, ?_⟩
  · intro p e he
    obtain ⟨t, c, a, tg, pb⟩ := p
    rcases t with _ | t <;> rcases c with _ | c <;> rcases a with _ | a <;>
      simp [validateBlogPost, blogPostErrors] at he
    subst he
    exact ⟨findOne_insert_self cb _ hb, rfl, rfl, rfl, rfl, rfl⟩
  · intro p e he
    obtain ⟨n, c, ci, sd, ed, su, lv⟩ := p
    rcases n with _ | n <;> rcases c with _ | c <;> rcases sd with _ | sd <;>
      rcases ed with _ | ed <;>
      simp [validateTournament, tournamentErrors] at he
    subst he
    exact ⟨findOne_insert_self ct _ ht, rfl, rfl, rfl, rfl, rfl, rfl, rfl⟩
  · intro p e he
    obtain ⟨t, ds, lv, vu, pr, pc⟩ := p
    rcases t with _ | t
    · simp [validateClassVideo, classVideoErrors] at he
    · rcases pc with _ | pc
      · simp [validateClassVideo, classVideoErrors] at he
        subst he
        exact ⟨findOne_insert_self cc _ hc, rfl, rfl, rfl, rfl, rfl, rfl⟩
      · by_cases hpc : pc < 0
        · simp [validateClassVideo, classVideoErrors, hpc] at he
        · simp [validateClassVideo, classVideoErrors, hpc] at he
          subst he
          exact ⟨findOne_insert_self cc _ hc, rfl, rfl, rfl, rfl, rfl, rfl⟩
  · intro p e he
    obtain ⟨n, c, ci, lg, hr, b, rt⟩ := p
    rcases n with _ | n <;> rcases c with _ | c <;> rcases hr with _ | hr <;>
      simp [validateTrainer, trainerErrors] at he
    rcases rt with _ | rt
    · by_cases hhr : hr < 0
      · simp [validateTrainer, trainerErrors, hhr] at he
      · simp [validateTrainer, trainerErrors, hhr] at he
        subst he
        exact ⟨findOne_insert_self ctr _ htr, rfl, rfl, rfl, rfl, rfl, rfl, rfl⟩
    · by_cases hhr : hr < 0
      · simp [validateTrainer, trainerErrors, hhr] at he
      · by_cases hrt : rt < 0 ∨ 5 < rt
        · simp [validateTrainer, trainerErrors, hhr, hrt] at he
        · simp [validateTrainer, trainerErrors, hhr, hrt] at he
          subst he
          exact ⟨findOne_insert_self ctr _ htr, rfl, rfl, rfl, rfl, rfl, rfl, rfl⟩
  · intro p e he
    obtain ⟨ti, un, ue, tu, sd, dh, nt, st⟩ := p
    rcases ti with _ | ti <;> rcases un with _ | un <;> rcases ue with _ | ue <;>
      rcases sd with _ | sd <;> rcases dh with _ | dh <;>
      simp [validateBooking, bookingErrors] at he
    by_cases hdh : dh ≤ 0
    · simp [validateBooking, bookingErrors, hdh] at he
    · simp [validateBooking, bookingErrors, hdh] at he
      subst he
      exact ⟨findOne_insert_self cbk _ hbk, rfl, rfl, rfl, rfl, rfl, rfl, rfl, rfl⟩

/-- Concrete valid payloads, one per entity kind, omitting every optional
field that carries a default, and the entities validation produces. -/
def blogP : BlogPostPayload :=
  { title := some "Hello", content := some "c", author_name := some "A",
    tags := none, published := none }

def blogE : BlogPost :=
  { title := "Hello", content := "c", author_name := "A",
    tags := [], published := true }

def tournP : TournamentPayload :=
  { name := some "RG", country := some "France", city := none,
    start_date := some 20300, end_date := some 20314, surface := none,
    level := none }

def tournE : Tournament :=
  { name := "RG", country := "France", city := none, start_date := 20300,
    end_date := 20314, surface := none, level := none }

def videoP : ClassVideoPayload :=
  { title := some "Serve", description := none, level := none,
    video_url := none, is_premium := none, price := none }

def videoE : ClassVideo :=
  { title := "Serve", description := none, level := none, video_url := none,
    is_premium := false, price := none }

def trainP : TrainerPayload :=
  { name := some "Ana Gomez", country := some "Spain", city := none,
    languages := none, hourly_rate := some 40, bio := none, rating := none }

def bookP : BookingPayload := { statusPayload with status := none }

/-- C5 witness: over empty collections, each validated entity is fetched back
by the identifier `insert` returned, with the defaults applied. -/
theorem C5_witness :
    ((⟨0, []⟩ : Coll BlogPost).insert blogE).2.findOne
        ((⟨0, []⟩ : Coll BlogPost).insert blogE).1 = some blogE
    ∧ blogE.tags = [] ∧ blogE.published = true
    ∧ ((⟨0, []⟩ : Coll Tournament).insert tournE).2.findOne
        ((⟨0, []⟩ : Coll Tournament).insert tournE).1 = some tournE
    ∧ ((⟨0, []⟩ : Coll ClassVideo).insert videoE).2.findOne
        ((⟨0, []⟩ : Coll ClassVideo).insert videoE).1 = some videoE
    ∧ videoE.is_premium = false
    ∧ ((⟨0, []⟩ : Coll Trainer).insert trainerAna).2.findOne
        ((⟨0, []⟩ : Coll Trainer).insert trainerAna).1 = some trainerAna
    ∧ trainerAna.languages = []
    ∧ ((⟨0, []⟩ : Coll Booking).insert bkJon).2.findOne
        ((⟨0, []⟩ : Coll Booking).insert bkJon).1 = some bkJon
    ∧ bkJon.status = "pending" := by
  have h := C5_validate_insert_find_round_trip
    ⟨0, []⟩ ⟨0, []⟩ ⟨0, []⟩ ⟨0, []⟩ ⟨0, []⟩
    (by simp) (by simp) (by simp) (by simp) (by simp)
  exact ⟨(h.1 blogP blogE rfl).1, (h.1 blogP blogE rfl).2.2.2.2.1,
    (h.1 blogP blogE rfl).2.2.2.2.2,
    (h.2.1 tournP tournE rfl).1,
    (h.2.2.1 videoP videoE rfl).1, (h.2.2.1 videoP videoE rfl).2.2.2.2.2.1,
    (h.2.2.2.1 trainP trainerAna rfl).1,
    (h.2.2.2.1 trainP trainerAna rfl).2.2.2.2.1,
    (h.2.2.2.2 bookP bkJon rfl).1,
    (h.2.2.2.2 bookP bkJon rfl).2.2.2.2.2.2.2.2⟩

/-! ### C9 -/

/-- Spec-side description of an offending blog-post-payload field: a missing
required field. -/
def blogPostOffends (p : BlogPostPayload) (f : String) : Prop :=
  (f = "title" ∧ p.title = none)
  ∨ (f = "content" ∧ p.content = none)
  ∨ (f = "author_name" ∧ p.author_name = none)

/-- Spec-side description of an offending tournament-payload field: a missing
required field. -/
def tournamentOffends (p : TournamentPayload) (f : String) : Prop :=
  (f = "name" ∧ p.name = none)
  ∨ (f = "country" ∧ p.country = none)
  ∨ (f = "start_date" ∧ p.start_date = none)
  ∨ (f = "end_date" ∧ p.end_date = none)

/-- Spec-side description of an offending class-video-payload field: a
missing `title`, or a present negative `price`. -/
def classVideoOffends (p : ClassVideoPayload) (f : String) : Prop :=
  (f = "title" ∧ p.title = none)
  ∨ (f = "price" ∧ ∃ r, p.price = some r ∧ r < 0)

/-- Spec-side description of an offending trainer-payload field: a missing
required field, a negative `hourly_rate`, or a present `rating` outside
[0, 5]. -/
def trainerOffends (p : TrainerPayload) (f : String) : Prop :=
  (f = "name" ∧ p.name = none)
  ∨ (f = "country" ∧ p.country = none)
  ∨ (f = "hourly_rate"
      ∧ (p.hourly_rate = none ∨ ∃ r, p.hourly_rate = some r ∧ r < 0))
  ∨ (f = "rating" ∧ ∃ r, p.rating = some r ∧ (r < 0 ∨ 5 < r))

/-- Spec-side description of an offending booking-payload field: a missing
required field, or a `duration_hours` that is not strictly positive. -/
def bookingOffends (p : BookingPayload) (f : String) : Prop :=
  (f = "trainer_id" ∧ p.trainer_id = none)
  ∨ (f = "user_name" ∧ p.user_name = none)
  ∨ (f = "user_email" ∧ p.user_email = none)
  ∨ (f = "session_date" ∧ p.session_date = none)
  ∨ (f = "duration_hours"
      ∧ (p.duration_hours = none ∨ ∃ r, p.duration_hours = some r ∧ r ≤ 0))

lemma mem_blogPostErrors_iff (p : BlogPostPayload) (f : String) :
    f ∈ blogPostErrors p ↔ blogPostOffends p f := by
  obtain ⟨t, c, a, tg, pb⟩ := p
  rcases t with _ | t <;> rcases c with _ | c <;> rcases a with _ | a <;>
    simp_all [blogPostErrors, blogPostOffends]

lemma mem_tournamentErrors_iff (p : TournamentPayload) (f : String) :
    f ∈ tournamentErrors p ↔ tournamentOffends p f := by
  obtain ⟨n, c, ci, sd, ed, su, lv⟩ := p
  rcases n with _ | n <;> rcases c with _ | c <;> rcases sd with _ | sd <;>
    rcases ed with _ | ed <;>
    simp_all [tournamentErrors, tournamentOffends]

lemma mem_classVideoErrors_iff (p : ClassVideoPayload) (f : String) :
    f ∈ classVideoErrors p ↔ classVideoOffends p f := by
  obtain ⟨t, ds, lv, vu, pr, pc⟩ := p
  rcases t with _ | t <;> rcases pc with _ | pc
  all_goals try by_cases hpc : pc < 0
  all_goals try simp_all [classVideoErrors, classVideoOffends]
  all_goals tauto

lemma mem_trainerErrors_iff (p : TrainerPayload) (f : String) :
    f ∈ trainerErrors p ↔ trainerOffends p f := by
  obtain ⟨n, c, ci, lg, hr, b, rt⟩ := p
  rcases n with _ | n <;> rcases c with _ | c <;> rcases hr with _ | hr <;>
    rcases rt with _ | rt
  all_goals try by_cases hhr : hr < 0
  all_goals try by_cases hrt : rt < 0 ∨ 5 < rt
  all_goals try simp_all [trainerErrors, trainerOffends]
  all_goals tauto

lemma mem_bookingErrors_iff (p : BookingPayload) (f : String) :
    f ∈ bookingErrors p ↔ bookingOffends p f := by
  obtain ⟨ti, un, ue, tu, sd, dh, nt, st⟩ := p
  rcases ti with _ | ti <;> rcases un with _ | un <;> rcases ue with _ | ue <;>
    rcases sd with _ | sd <;> rcases dh with _ | dh
  all_goals try by_cases hdh : dh ≤ 0
  all_goals try simp_all [bookingErrors, bookingOffends]
  all_goals tauto

/-- C9: for each of the five payload kinds, a payload with some offending
field (a missing required field, or a violated numeric bound: `price < 0`,
`hourly_rate < 0`, `rating` outside [0, 5], `duration_hours ≤ 0`) is rejected
with a single MalformedPayload error whose field list contains exactly the
offending fields, and the corresponding create endpoint leaves the database
unchanged. -/
theorem C9_aggregated_malformed_payload (db : DB)
    (pbl : BlogPostPayload) (ptn : TournamentPayload)
    (pcv : ClassVideoPayload) (pt : TrainerPayload) (pb : BookingPayload)
    (hbl : ∃ f, blogPostOffends pbl f) (htn : ∃ f, tournamentOffends ptn f)
    (hcv : ∃ f, classVideoOffends pcv f) (ht : ∃ f, trainerOffends pt f)
    (hb : ∃ f, bookingOffends pb f) :
    (validateBlogPost pbl = .error (blogPostErrors pbl)
      ∧ (∀ f, f ∈ blogPostErrors pbl ↔ blogPostOffends pbl f)
      ∧ post_blog db pbl
          = (.error (.malformedPayload (blogPostErrors pbl)), db))
    ∧ (validateTournament ptn = .error (tournamentErrors ptn)
      ∧ (∀ f, f ∈ tournamentErrors ptn ↔ tournamentOffends ptn f)
      ∧ post_tournament db ptn
          = (.error (.malformedPayload (tournamentErrors ptn)), db))
    ∧ (validateClassVideo pcv = .error (classVideoErrors pcv)
      ∧ (∀ f, f ∈ classVideoErrors pcv ↔ classVideoOffends pcv f)
      ∧ post_class_video db pcv
          = (.error (.malformedPayload (classVideoErrors pcv)), db))
    ∧ (validateTrainer pt = .error (trainerErrors pt)
      ∧ (∀ f, f ∈ trainerErrors pt ↔ trainerOffends pt f)
      ∧ post_trainer db pt
          = (.error (.malformedPayload (trainerErrors pt)), db))
    ∧ (validateBooking pb = .error (bookingErrors pb)
      ∧ (∀ f, f ∈ bookingErrors pb ↔ bookingOffends pb f)
      ∧ post_booking db pb
          = (.error (.malformedPayload (bookingErrors pb)), db)) := by
  obtain ⟨fbl, hfbl⟩ := hbl
  obtain ⟨ftn, hftn⟩ := htn
  obtain ⟨fcv, hfcv⟩ := hcv
  obtain ⟨ft, hft⟩ := ht
  obtain ⟨fb, hfb⟩ := hb
  have hmbl : fbl ∈ blogPostErrors pbl :=
    (mem_blogPostErrors_iff pbl fbl).mpr hfbl
  have hmtn : ftn ∈ tournamentErrors ptn :=
    (mem_tournamentErrors_iff ptn ftn).mpr hftn
  have hmcv : fcv ∈ classVideoErrors pcv :=
    (mem_classVideoErrors_iff pcv fcv).mpr hfcv
  have hmt : ft ∈ trainerErrors pt := (mem_trainerErrors_iff pt ft).mpr hft
  have hmb : fb ∈ bookingErrors pb := (mem_bookingErrors_iff pb fb).mpr hfb
  have hvbl : validateBlogPost pbl = .error (blogPostErrors pbl) := by
    rcases hble : blogPostErrors pbl with _ | ⟨a, l⟩
    · rw [hble] at hmbl
      exact absurd hmbl (List.not_mem_nil _)
    · simp [validateBlogPost, hble]
  have hvtn : validateTournament ptn = .error (tournamentErrors ptn) := by
    rcases htne : tournamentErrors ptn with _ | ⟨a, l⟩
    · rw [htne] at hmtn
      exact absurd hmtn (List.not_mem_nil _)
    · simp [validateTournament, htne]
  have hvcv : validateClassVideo pcv = .error (classVideoErrors pcv) := by
    rcases hcve : classVideoErrors pcv with _ | ⟨a, l⟩
    · rw [hcve] at hmcv
      exact absurd hmcv (List.not_mem_nil _)
    · simp [validateClassVideo, hcve]
  have hvt : validateTrainer pt = .error (trainerErrors pt) := by
    rcases hte : trainerErrors pt with _ | ⟨a, l⟩
    · rw [hte] at hmt
      exact absurd hmt (List.not_mem_nil _)
    · simp [validateTrainer, hte]
  have hvb : validateBooking pb = .error (bookingErrors pb) := by
    rcases hbe : bookingErrors pb with _ | ⟨a, l⟩
    · rw [hbe] at hmb
      exact absurd hmb (List.not_mem_nil _)
    · simp [validateBooking, hbe]
  refine ⟨⟨hvbl, fun f => mem_blogPostErrors_iff pbl f, ?_⟩,
    ⟨hvtn, fun f => mem_tournamentErrors_iff ptn f, ?_⟩,
    ⟨hvcv, fun f => mem_classVideoErrors_iff pcv f, ?_⟩,
    ⟨hvt, fun f => mem_trainerErrors_iff pt f, ?_⟩,
    ⟨hvb, fun f => mem_bookingErrors_iff pb f, ?_⟩⟩
  · simp [post_blog, hvbl]
  · simp [post_tournament, hvtn]
  · simp [post_class_video, hvcv]
  · simp [post_trainer, hvt]
  · simp [post_booking, hvb]

/-- A blog payload missing `title` and `author_name`. -/
def badBlogPayload : BlogPostPayload :=
  { title := none, content := some "c", author_name := none,
    tags := none, published := none }

/-- A tournament payload missing `country` and `start_date`. -/
def badTournamentPayload : TournamentPayload :=
  { name := some "RG", country := none, city := none, start_date := none,
    end_date := some 20314, surface := none, level := none }

/-- A class-video payload missing `title`, with a negative price. -/
def badVideoPayload : ClassVideoPayload :=
  { title := none, description := none, level := none, video_url := none,
    is_premium := none, price := some (-1) }

/-- A trainer payload missing `name`, with a negative rate and a rating
above 5. -/
def badTrainerPayload : TrainerPayload :=
  { name := none, country := some "Spain", city := none, languages := none,
    hourly_rate := some (-5), bio := none, rating := some 6 }

/-- A booking payload missing `user_email`, with a zero duration. -/
def badBookingPayload : BookingPayload :=
  { statusPayload with user_email := none, duration_hours := some 0 }

/-- C9 witness: one bad payload per entity kind, each rejected with one
aggregated error naming every offending field, with `db1` unchanged. -/
theorem C9_witness :
    validateBlogPost badBlogPayload = .error ["title", "author_name"]
    ∧ post_blog db1 badBlogPayload
        = (.error (.malformedPayload ["title", "author_name"]), db1)
    ∧ validateTournament badTournamentPayload
        = .error ["country", "start_date"]
    ∧ post_tournament db1 badTournamentPayload
        = (.error (.malformedPayload ["country", "start_date"]), db1)
    ∧ validateClassVideo badVideoPayload = .error ["title", "price"]
    ∧ post_class_video db1 badVideoPayload
        = (.error (.malformedPayload ["title", "price"]), db1)
    ∧ validateTrainer badTrainerPayload
        = .error ["name", "hourly_rate", "rating"]
    ∧ post_trainer db1 badTrainerPayload
        = (.error (.malformedPayload ["name", "hourly_rate", "rating"]), db1)
    ∧ validateBooking badBookingPayload
        = .error ["user_email", "duration_hours"]
    ∧ post_booking db1 badBookingPayload
        = (.error (.malformedPayload ["user_email", "duration_hours"]), db1) := by
  have h := C9_aggregated_malformed_payload db1 badBlogPayload
    badTournamentPayload badVideoPayload badTrainerPayload badBookingPayload
    ⟨"title", Or.inl ⟨rfl, rfl⟩⟩
    ⟨"country", Or.inr (Or.inl ⟨rfl, rfl⟩)⟩
    ⟨"title", Or.inl ⟨rfl, rfl⟩⟩
    ⟨"name", Or.inl ⟨rfl, rfl⟩⟩
    ⟨"user_email", Or.inr (Or.inr (Or.inl ⟨rfl, rfl⟩))⟩
  exact ⟨h.1.1, h.1.2.2, h.2.1.1, h.2.1.2.2, h.2.2.1.1, h.2.2.1.2.2,
    h.2.2.2.1.1, h.2.2.2.1.2.2, h.2.2.2.2.1, h.2.2.2.2.2.2⟩

end TennisConnect
